import Mathlib

/-!
Verification of the sizing and protection-derivation engine of the off-grid
solar calculator (`src/pages/Professional.tsx`).

The engine is embedded shallowly over `ℚ`: every JavaScript number that the
calculation pipeline manipulates becomes an exact rational, `parseFloat`
results become `Option ℚ` (`none` models `NaN`, i.e. a missing or
non-numeric form field), `Math.ceil` becomes `Int.ceil`, `Math.round`
becomes `⌊x + 1/2⌋` (JavaScript rounds half up), and the nullable result of
the `calculations` memo becomes `Option CalculationResults`.
-/

namespace Pro0126

/-- `STANDARD_MCB_SIZES` from Professional.tsx: the ascending table of
standard breaker ratings in amps. -/
def STANDARD_MCB_SIZES : List ℚ := [6, 10, 16, 20, 25, 32, 40, 50, 63, 80, 100, 125, 160]

/-- `CABLE_CURRENT_RATINGS` from Professional.tsx: ascending pairs of
(cross-section mm², rated current A) for copper, PVC insulated cable. -/
def CABLE_CURRENT_RATINGS : List (ℚ × ℚ) :=
  [(1.5, 15), (2.5, 21), (4, 28), (6, 36), (10, 50),
   (16, 68), (25, 89), (35, 110), (50, 133), (70, 171), (95, 207)]

/-- JavaScript `x || d` on a number-or-undefined value: the fallback `d` is
taken when `x` is `undefined` (here `none`) or falsy (`0`). -/
def jsOr (x : Option ℚ) (d : ℚ) : ℚ :=
  match x with
  | some v => if v = 0 then d else v
  | none => d

/-- `nextMcbSize` from Professional.tsx: apply a 25% margin and take the
first table entry at least as large, falling back (via `||`) to the last
table entry. -/
def nextMcbSize (current : ℚ) : ℚ :=
  let rated := current * 1.25
  jsOr (STANDARD_MCB_SIZES.find? (fun s => decide (rated ≤ s))) (STANDARD_MCB_SIZES.getLastD 0)

/-- `cableSizeForCurrent` from Professional.tsx: apply a 25% margin and take
the cross-section of the first entry whose rated current is at least as
large, falling back (ternary on `undefined`) to the last entry's
cross-section. -/
def cableSizeForCurrent (current : ℚ) : ℚ :=
  let needed := current * 1.25
  match CABLE_CURRENT_RATINGS.find? (fun p => decide (needed ≤ p.2)) with
  | some p => p.1
  | none => (CABLE_CURRENT_RATINGS.getLastD (0, 0)).1

/-- A successful threshold search returns a list member meeting the threshold. -/
lemma find?_threshold_mem {α : Type} (f : α → ℚ) (r : ℚ) (l : List α) (x : α)
    (h : l.find? (fun a => decide (r ≤ f a)) = some x) : x ∈ l ∧ r ≤ f x := by
  refine ⟨List.mem_of_find?_eq_some h, ?_⟩
  have hx := List.find?_some h
  simpa using hx

/-- On a list pairwise-ordered by `R`, a successful threshold search on the
key `f` returns an element that any other element meeting the threshold
either equals or is `R`-above. -/
lemma find?_threshold_first {α : Type} (f : α → ℚ) (R : α → α → Prop) (r : ℚ) :
    ∀ (l : List α), l.Pairwise R → ∀ x,
      l.find? (fun a => decide (r ≤ f a)) = some x → ∀ y ∈ l, r ≤ f y → x = y ∨ R x y := by
  intro l
  induction l with
  | nil => intro _ x h; simp at h
  | cons a t ih =>
    intro hp x h y hy hry
    rw [List.find?_cons] at h
    by_cases hra : r ≤ f a
    · simp [hra] at h
      subst h
      rcases List.mem_cons.mp hy with hya | hyt
      · exact Or.inl hya.symm
      · exact Or.inr ((List.pairwise_cons.mp hp).1 y hyt)
    · simp [hra] at h
      rcases List.mem_cons.mp hy with hya | hyt
      · exact absurd (hya ▸ hry) hra
      · exact ih (List.pairwise_cons.mp hp).2 x h y hyt hry

/-- Specialisation of `find?_threshold_first` to a list sorted on the key:
the found element has the least key among those meeting the threshold. -/
lemma find?_threshold_min {α : Type} (f : α → ℚ) (r : ℚ) (l : List α)
    (hl : l.Pairwise (fun a b => f a ≤ f b)) (x : α)
    (h : l.find? (fun a => decide (r ≤ f a)) = some x) :
    ∀ y ∈ l, r ≤ f y → f x ≤ f y := by
  intro y hy hry
  rcases find?_threshold_first f _ r l hl x h y hy hry with heq | hle
  · exact heq ▸ le_refl _
  · exact hle

/-- A failed threshold search means every key is below the threshold. -/
lemma find?_threshold_none {α : Type} (f : α → ℚ) (r : ℚ) (l : List α)
    (h : l.find? (fun a => decide (r ≤ f a)) = none) : ∀ y ∈ l, f y < r := by
  intro y hy
  have hx := List.find?_eq_none.mp h y hy
  simpa using hx

lemma mcb_sorted : STANDARD_MCB_SIZES.Pairwise (· ≤ ·) := by
  unfold STANDARD_MCB_SIZES; norm_num

lemma cable_sorted : CABLE_CURRENT_RATINGS.Pairwise (fun p q => p.1 ≤ q.1 ∧ p.2 ≤ q.2) := by
  unfold CABLE_CURRENT_RATINGS; norm_num

lemma mcb_pos : ∀ s ∈ STANDARD_MCB_SIZES, (0 : ℚ) < s := by
  unfold STANDARD_MCB_SIZES; norm_num

/-- When the search over the breaker table succeeds, `nextMcbSize` returns
exactly the found entry (the `||` fallback never fires on a positive entry). -/
lemma nextMcbSize_eq_of_find (c x : ℚ)
    (h : STANDARD_MCB_SIZES.find? (fun s => decide (c * 1.25 ≤ s)) = some x) :
    nextMcbSize c = x := by
  have hx := find?_threshold_mem id (c * 1.25) STANDARD_MCB_SIZES x h
  have hx0 : x ≠ 0 := ne_of_gt (mcb_pos x hx.1)
  simp only [nextMcbSize, jsOr, h, hx0, if_false]

lemma nextMcbSize_eq_of_none (c : ℚ)
    (h : STANDARD_MCB_SIZES.find? (fun s => decide (c * 1.25 ≤ s)) = none) :
    nextMcbSize c = 160 := by
  simp only [nextMcbSize, jsOr, h]
  rfl

/-- The breaker returned is always a member of the standard table. -/
lemma nextMcbSize_mem (c : ℚ) : nextMcbSize c ∈ STANDARD_MCB_SIZES := by
  rcases h : STANDARD_MCB_SIZES.find? (fun s => decide (c * 1.25 ≤ s)) with _ | x
  · rw [nextMcbSize_eq_of_none c h]; unfold STANDARD_MCB_SIZES; norm_num
  · rw [nextMcbSize_eq_of_find c x h]
    exact (find?_threshold_mem id (c * 1.25) STANDARD_MCB_SIZES x h).1

/-- If some table entry covers the margined current, `nextMcbSize` returns
the smallest covering entry. -/
lemma nextMcbSize_min (c s : ℚ) (hs : s ∈ STANDARD_MCB_SIZES) (hcs : c * 1.25 ≤ s) :
    c * 1.25 ≤ nextMcbSize c ∧ nextMcbSize c ≤ s := by
  rcases h : STANDARD_MCB_SIZES.find? (fun s => decide (c * 1.25 ≤ s)) with _ | x
  · exact absurd hcs (not_le.mpr (find?_threshold_none id (c * 1.25) _ h s hs))
  · rw [nextMcbSize_eq_of_find c x h]
    exact ⟨(find?_threshold_mem id (c * 1.25) _ x h).2,
      find?_threshold_min id (c * 1.25) _ mcb_sorted x h s hs hcs⟩

/-- If the margined current exceeds every table entry, `nextMcbSize`
saturates at 160. -/
lemma nextMcbSize_saturate (c : ℚ) (h : ∀ s ∈ STANDARD_MCB_SIZES, s < c * 1.25) :
    nextMcbSize c = 160 := by
  rcases hf : STANDARD_MCB_SIZES.find? (fun s => decide (c * 1.25 ≤ s)) with _ | x
  · exact nextMcbSize_eq_of_none c hf
  · have hx := find?_threshold_mem id (c * 1.25) _ x hf
    exact absurd hx.2 (not_le.mpr (h x hx.1))

/-- The cable search characterised entry-wise: the returned cross-section
always comes from some table entry. -/
lemma cableSizeForCurrent_mem (c : ℚ) :
    ∃ p ∈ CABLE_CURRENT_RATINGS, cableSizeForCurrent c = p.1 := by
  rcases h : CABLE_CURRENT_RATINGS.find? (fun p => decide (c * 1.25 ≤ p.2)) with _ | x
  · refine ⟨(95, 207), by unfold CABLE_CURRENT_RATINGS; norm_num, ?_⟩
    simp only [cableSizeForCurrent, h]
    rfl
  · exact ⟨x, (find?_threshold_mem Prod.snd (c * 1.25) _ x h).1,
      by simp only [cableSizeForCurrent, h]⟩

/-- If some cable entry's rating covers the margined current, the returned
entry covers it and has the least cross-section and rating among covering
entries. -/
lemma cableSizeForCurrent_min (c : ℚ) (q : ℚ × ℚ) (hq : q ∈ CABLE_CURRENT_RATINGS)
    (hcq : c * 1.25 ≤ q.2) :
    ∃ p ∈ CABLE_CURRENT_RATINGS, cableSizeForCurrent c = p.1 ∧
      c * 1.25 ≤ p.2 ∧ p.1 ≤ q.1 ∧ p.2 ≤ q.2 := by
  rcases h : CABLE_CURRENT_RATINGS.find? (fun p => decide (c * 1.25 ≤ p.2)) with _ | x
  · exact absurd hcq (not_le.mpr (find?_threshold_none Prod.snd (c * 1.25) _ h q hq))
  · have hboth : x.1 ≤ q.1 ∧ x.2 ≤ q.2 := by
      rcases find?_threshold_first Prod.snd _ (c * 1.25) CABLE_CURRENT_RATINGS
          cable_sorted x h q hq hcq with heq | hr
      · exact heq ▸ ⟨le_refl _, le_refl _⟩
      · exact hr
    exact ⟨x, (find?_threshold_mem Prod.snd (c * 1.25) _ x h).1,
      by simp only [cableSizeForCurrent, h], (find?_threshold_mem Prod.snd (c * 1.25) _ x h).2,
      hboth.1, hboth.2⟩

/-- If the margined current exceeds every rating in the cable table, the
cross-section saturates at 95 mm². -/
lemma cableSizeForCurrent_saturate (c : ℚ) (h : ∀ p ∈ CABLE_CURRENT_RATINGS, p.2 < c * 1.25) :
    cableSizeForCurrent c = 95 := by
  rcases hf : CABLE_CURRENT_RATINGS.find? (fun p => decide (c * 1.25 ≤ p.2)) with _ | x
  · simp only [cableSizeForCurrent, hf]
    rfl
  · have hx := find?_threshold_mem Prod.snd (c * 1.25) _ x hf
    exact absurd hx.2 (not_le.mpr (h x hx.1))

/-- `ConnectionType` from Professional.tsx. -/
inductive ConnectionType
  | series
  | parallel
  | seriesParallel
deriving DecidableEq, Repr

/-- The parsed numeric inputs of the `calculations` memo together with the
two topology selectors. Each numeric field is `parseFloat` of a raw form
string: `none` models `NaN` (missing or non-numeric text), `some v` a finite
numeric value. -/
structure Configuration where
  solarLoad : Option ℚ
  backupLoad : Option ℚ
  systemVoltage : Option ℚ
  backupHours : Option ℚ
  batteryVoltage : Option ℚ
  batteryAh : Option ℚ
  batteryConnection : ConnectionType
  solarHours : Option ℚ
  panelWattage : Option ℚ
  panelVoltage : Option ℚ
  panelConnection : ConnectionType
deriving DecidableEq, Repr

/-- `ProtectionSizing` from Professional.tsx. `spdRating` and
`isolatorSwitch` are display strings in the source
(`Type 2 DC SPD, ${V}V rated` and `DC Isolator ${V}V / ${A}A`); the embedded
fields carry the interpolated numeric values `V` and `A`. -/
structure ProtectionSizing where
  dcMcbPanelToCC : ℚ
  dcMcbCCToBattery : ℚ
  acMcbInverterToLoad : ℚ
  dcBreakerBatteryToInverter : ℚ
  spdRatingVolts : ℤ
  earthWire : ℚ
  isolatorVolts : ℤ
  isolatorAmps : ℚ
  cablePanelToCC : ℚ
  cableCCToBattery : ℚ
  cableBatteryToInverter : ℚ
  cableInverterToLoad : ℚ
deriving DecidableEq, Repr

/-- `CalculationResults` from Professional.tsx. Fields that the source
passes through `Math.ceil`/`Math.round` are integers here. -/
structure CalculationResults where
  minBatteries : ℤ
  batteryBankVoltage : ℚ
  batteryBankAh : ℚ
  totalPanels : ℤ
  panelArrayVoltage : ℤ
  panelArrayWattage : ℚ
  dailyEnergyProduction : ℤ
  recommendedChargeController : ℤ
  protection : ProtectionSizing
deriving DecidableEq, Repr

/-- JavaScript truthiness test `!x` on a parsed number: true exactly for
`NaN` (here `none`) and `0`. A negative number is truthy in JavaScript, so
it does NOT trip this test. -/
def jsFalsy : Option ℚ → Bool
  | none => true
  | some v => decide (v = 0)

/-- JavaScript `Math.round`: round half toward positive infinity. -/
def jsRound (x : ℚ) : ℤ := ⌊x + 1/2⌋

/-- The body of the `calculations` memo of Professional.tsx, after the
completeness guard has passed: a direct transcription of the arithmetic on
the nine parsed numeric inputs and the panel topology.
(`batteryConnection` is not read anywhere in the body.) -/
def computeValid (sLoad bLoad sysVolt backup batVolt batAh sunHours pnlWatt pnlVolt : ℚ)
    (panelConnection : ConnectionType) : CalculationResults :=
  -- Battery sizing based on backup load
  let energyNeeded := bLoad * backup
  let dod : ℚ := 1.0
  let usableEnergy := energyNeeded / dod
  let batteriesInSeries := sysVolt / batVolt
  let batteryBankWh := batVolt * batAh
  let parallelStrings : ℤ := ⌈usableEnergy / (batteryBankWh * batteriesInSeries)⌉
  let minBatteries : ℚ := batteriesInSeries * (parallelStrings : ℚ)
  -- Solar panel sizing
  let dailySolarConsumption := sLoad * sunHours
  let dailyBackupEnergy := bLoad * backup
  let totalDailyEnergy := (dailySolarConsumption + dailyBackupEnergy) * 1.2
  let panelsNeeded : ℤ := ⌈totalDailyEnergy / (pnlWatt * sunHours)⌉
  -- Panel array configuration
  let panelArrayVoltage : ℚ :=
    match panelConnection with
    | .series => pnlVolt * (panelsNeeded : ℚ)
    | .parallel => pnlVolt
    | .seriesParallel => pnlVolt * 2
  let panelArrayWattage := pnlWatt * (panelsNeeded : ℚ)
  let dailyEnergyProduction := pnlWatt * (panelsNeeded : ℚ) * sunHours
  -- Charge controller sizing (25% safety margin)
  let maxCurrent := pnlWatt * (panelsNeeded : ℚ) / sysVolt
  let recommendedChargeController : ℤ := ⌈maxCurrent * 1.25 / 10⌉ * 10
  -- Protection & breaker sizing
  let maxLoad := max sLoad bLoad
  let dcLoadCurrent := maxLoad / sysVolt
  let acLoadCurrent := maxLoad / 230
  -- SPD rating based on array open circuit voltage (Voc ~ Vmp x 1.2)
  let arrayVoc : ℚ :=
    match panelConnection with
    | .series => pnlVolt * 1.2 * (panelsNeeded : ℚ)
    | .seriesParallel => pnlVolt * 1.2 * ((⌈(panelsNeeded : ℚ) / 2⌉ : ℤ) : ℚ)
    | .parallel => pnlVolt * 1.2
  { minBatteries := ⌈minBatteries⌉
    batteryBankVoltage := sysVolt
    batteryBankAh := batAh * (parallelStrings : ℚ)
    totalPanels := panelsNeeded
    panelArrayVoltage := jsRound panelArrayVoltage
    panelArrayWattage := panelArrayWattage
    dailyEnergyProduction := jsRound dailyEnergyProduction
    recommendedChargeController := recommendedChargeController
    protection :=
      { dcMcbPanelToCC := nextMcbSize dcLoadCurrent
        dcMcbCCToBattery := nextMcbSize dcLoadCurrent
        acMcbInverterToLoad := nextMcbSize acLoadCurrent
        dcBreakerBatteryToInverter := nextMcbSize dcLoadCurrent
        spdRatingVolts := ⌈arrayVoc / 100⌉ * 100
        earthWire := 16
        isolatorVolts := ⌈arrayVoc / 100⌉ * 100
        isolatorAmps := nextMcbSize dcLoadCurrent
        cablePanelToCC := cableSizeForCurrent dcLoadCurrent
        cableCCToBattery := cableSizeForCurrent dcLoadCurrent
        cableBatteryToInverter := cableSizeForCurrent dcLoadCurrent
        cableInverterToLoad := cableSizeForCurrent acLoadCurrent } }

/-- The `calculations` memo of Professional.tsx: the guard
`if (!sLoad || !bLoad || ... ) return null` followed by the arithmetic body.
After the guard every numeric field is known to be `some`, so the `getD 0`
defaults are never taken. -/
def compute (cfg : Configuration) : Option CalculationResults :=
  if jsFalsy cfg.solarLoad || jsFalsy cfg.backupLoad || jsFalsy cfg.systemVoltage ||
      jsFalsy cfg.backupHours || jsFalsy cfg.batteryVoltage || jsFalsy cfg.batteryAh ||
      jsFalsy cfg.solarHours || jsFalsy cfg.panelWattage || jsFalsy cfg.panelVoltage then
    none
  else
    some (computeValid (cfg.solarLoad.getD 0) (cfg.backupLoad.getD 0) (cfg.systemVoltage.getD 0)
      (cfg.backupHours.getD 0) (cfg.batteryVoltage.getD 0) (cfg.batteryAh.getD 0)
      (cfg.solarHours.getD 0) (cfg.panelWattage.getD 0) (cfg.panelVoltage.getD 0)
      cfg.panelConnection)

/-- A fully numeric `Configuration` with all nine numeric fields present. -/
def mkConfig (sLoad bLoad sysVolt backup batVolt batAh sunHours pnlWatt pnlVolt : ℚ)
    (batConn panelConn : ConnectionType) : Configuration :=
  { solarLoad := some sLoad
    backupLoad := some bLoad
    systemVoltage := some sysVolt
    backupHours := some backup
    batteryVoltage := some batVolt
    batteryAh := some batAh
    batteryConnection := batConn
    solarHours := some sunHours
    panelWattage := some pnlWatt
    panelVoltage := some pnlVolt
    panelConnection := panelConn }

/-- On a complete (all-positive) configuration the guard passes and
`compute` returns the arithmetic body's result. -/
lemma compute_mkConfig (sLoad bLoad sysVolt backup batVolt batAh sunHours pnlWatt pnlVolt : ℚ)
    (batConn panelConn : ConnectionType)
    (h1 : sLoad ≠ 0) (h2 : bLoad ≠ 0) (h3 : sysVolt ≠ 0) (h4 : backup ≠ 0) (h5 : batVolt ≠ 0)
    (h6 : batAh ≠ 0) (h7 : sunHours ≠ 0) (h8 : pnlWatt ≠ 0) (h9 : pnlVolt ≠ 0) :
    compute (mkConfig sLoad bLoad sysVolt backup batVolt batAh sunHours pnlWatt pnlVolt
        batConn panelConn) =
      some (computeValid sLoad bLoad sysVolt backup batVolt batAh sunHours pnlWatt pnlVolt
        panelConn) := by
  simp [compute, mkConfig, jsFalsy, h1, h2, h3, h4, h5, h6, h7, h8, h9]

/-- For a positive rational, the ceiling is at least one. -/
lemma one_le_ceil_of_pos {a : ℚ} (ha : 0 < a) : 1 ≤ ⌈a⌉ := by
  have h := Int.ceil_pos.mpr ha
  omega

/-- Claim C1: for every positive current `c`, `nextMcbSize c` is a member of
the standard breaker table and is the smallest entry ≥ `1.25·c`, returning
160 when `1.25·c` exceeds every entry; `cableSizeForCurrent c` returns the
cross-section of the first (least) table entry whose rated current is
≥ `1.25·c`, returning 95 when `1.25·c` exceeds every rating. Exact hits on a
table entry select that entry (the comparison is an inclusive `≥`), and both
functions are total (membership/saturation covers every input). -/
theorem C1_lookup_tables (c : ℚ) (hc : 0 < c) :
    nextMcbSize c ∈ STANDARD_MCB_SIZES ∧
    (∀ s ∈ STANDARD_MCB_SIZES, c * 1.25 ≤ s →
      c * 1.25 ≤ nextMcbSize c ∧ nextMcbSize c ≤ s) ∧
    ((∀ s ∈ STANDARD_MCB_SIZES, s < c * 1.25) → nextMcbSize c = 160) ∧
    (∃ p ∈ CABLE_CURRENT_RATINGS, cableSizeForCurrent c = p.1) ∧
    (∀ q ∈ CABLE_CURRENT_RATINGS, c * 1.25 ≤ q.2 →
      ∃ p ∈ CABLE_CURRENT_RATINGS, cableSizeForCurrent c = p.1 ∧
        c * 1.25 ≤ p.2 ∧ p.1 ≤ q.1 ∧ p.2 ≤ q.2) ∧
    ((∀ q ∈ CABLE_CURRENT_RATINGS, q.2 < c * 1.25) → cableSizeForCurrent c = 95) :=
  ⟨nextMcbSize_mem c,
    fun s hs hcs => nextMcbSize_min c s hs hcs,
    nextMcbSize_saturate c,
    cableSizeForCurrent_mem c,
    fun q hq hcq => cableSizeForCurrent_min c q hq hcq,
    cableSizeForCurrent_saturate c⟩

/-- Witness for C1 at the concrete current 4 A. -/
theorem C1_lookup_tables_witness :
    (0 : ℚ) < 4 ∧
    (nextMcbSize 4 ∈ STANDARD_MCB_SIZES ∧
    (∀ s ∈ STANDARD_MCB_SIZES, (4 : ℚ) * 1.25 ≤ s →
      (4 : ℚ) * 1.25 ≤ nextMcbSize 4 ∧ nextMcbSize 4 ≤ s) ∧
    ((∀ s ∈ STANDARD_MCB_SIZES, s < (4 : ℚ) * 1.25) → nextMcbSize 4 = 160) ∧
    (∃ p ∈ CABLE_CURRENT_RATINGS, cableSizeForCurrent 4 = p.1) ∧
    (∀ q ∈ CABLE_CURRENT_RATINGS, (4 : ℚ) * 1.25 ≤ q.2 →
      ∃ p ∈ CABLE_CURRENT_RATINGS, cableSizeForCurrent 4 = p.1 ∧
        (4 : ℚ) * 1.25 ≤ p.2 ∧ p.1 ≤ q.1 ∧ p.2 ≤ q.2) ∧
    ((∀ q ∈ CABLE_CURRENT_RATINGS, q.2 < (4 : ℚ) * 1.25) → cableSizeForCurrent 4 = 95)) :=
  ⟨by norm_num, C1_lookup_tables 4 (by norm_num)⟩

/-- A configuration whose `backupLoad` parses to the negative number −1
while every other field is valid and positive. -/
def negativeBackupConfig : Configuration :=
  mkConfig 100 (-1) 24 4 12 200 5 450 40 ConnectionType.series ConnectionType.series

/-- Counterexample to claim C2 as stated: a configuration with a negative
required field (`backupLoad = −1`) does NOT yield the null result — the
guard `!bLoad` only catches `NaN` and `0`, and a negative number is truthy in
JavaScript, so `compute` produces a (garbage) `Result`. -/
theorem C2_counterexample :
    negativeBackupConfig.backupLoad = some (-1) ∧ compute negativeBackupConfig ≠ none :=
  ⟨rfl, by decide⟩

/-- Claim C2 as amended: a required numeric field that is missing,
non-numeric (`parseFloat` gives `NaN`, modelled `none`), or zero makes
`compute` yield the null result regardless of the other fields; merely
negative fields are NOT caught by the guard. -/
theorem C2_missing_or_zero_incomplete (cfg : Configuration)
    (h : cfg.solarLoad = none ∨ cfg.solarLoad = some 0 ∨
         cfg.backupLoad = none ∨ cfg.backupLoad = some 0 ∨
         cfg.systemVoltage = none ∨ cfg.systemVoltage = some 0 ∨
         cfg.backupHours = none ∨ cfg.backupHours = some 0 ∨
         cfg.batteryVoltage = none ∨ cfg.batteryVoltage = some 0 ∨
         cfg.batteryAh = none ∨ cfg.batteryAh = some 0 ∨
         cfg.solarHours = none ∨ cfg.solarHours = some 0 ∨
         cfg.panelWattage = none ∨ cfg.panelWattage = some 0 ∨
         cfg.panelVoltage = none ∨ cfg.panelVoltage = some 0) :
    compute cfg = none := by
  rcases h with h|h|h|h|h|h|h|h|h|h|h|h|h|h|h|h|h|h <;> simp [compute, jsFalsy, h]

/-- A configuration whose `solarLoad` field failed to parse (`NaN`). -/
def missingSolarLoadConfig : Configuration :=
  { mkConfig 0 1500 24 4 12 200 5 450 40 ConnectionType.series ConnectionType.series with
    solarLoad := none }

/-- Witness for the amended C2 at a concrete configuration missing
`solarLoad`. -/
theorem C2_missing_or_zero_incomplete_witness :
    (missingSolarLoadConfig.solarLoad = none ∨ missingSolarLoadConfig.solarLoad = some 0 ∨
     missingSolarLoadConfig.backupLoad = none ∨ missingSolarLoadConfig.backupLoad = some 0 ∨
     missingSolarLoadConfig.systemVoltage = none ∨ missingSolarLoadConfig.systemVoltage = some 0 ∨
     missingSolarLoadConfig.backupHours = none ∨ missingSolarLoadConfig.backupHours = some 0 ∨
     missingSolarLoadConfig.batteryVoltage = none ∨
     missingSolarLoadConfig.batteryVoltage = some 0 ∨
     missingSolarLoadConfig.batteryAh = none ∨ missingSolarLoadConfig.batteryAh = some 0 ∨
     missingSolarLoadConfig.solarHours = none ∨ missingSolarLoadConfig.solarHours = some 0 ∨
     missingSolarLoadConfig.panelWattage = none ∨ missingSolarLoadConfig.panelWattage = some 0 ∨
     missingSolarLoadConfig.panelVoltage = none ∨ missingSolarLoadConfig.panelVoltage = some 0) ∧
    compute missingSolarLoadConfig = none :=
  ⟨Or.inl rfl, C2_missing_or_zero_incomplete missingSolarLoadConfig (Or.inl rfl)⟩

/-- Claim C3: for every complete configuration, with
`E = backupLoad·backupHours`, `S = systemVoltage/batteryVoltage`,
`W_string = batteryVoltage·batteryCapacity·S` and `P = ⌈E/W_string⌉`, the
result satisfies `batteryCount = ⌈S·P⌉`, `bankVoltage = systemVoltage` and
`bankCapacityAh = batteryCapacity·P`; no depth-of-discharge or efficiency
derating enters the battery sizing (the code's `dod` is fixed at 1.0). -/
theorem C3_battery_sizing (sL bL sV bH bV bA sH pW pV : ℚ) (bc pc : ConnectionType)
    (h1 : 0 < sL) (h2 : 0 < bL) (h3 : 0 < sV) (h4 : 0 < bH) (h5 : 0 < bV)
    (h6 : 0 < bA) (h7 : 0 < sH) (h8 : 0 < pW) (h9 : 0 < pV) :
    ∃ res, compute (mkConfig sL bL sV bH bV bA sH pW pV bc pc) = some res ∧
      res.minBatteries = ⌈(sV / bV) * ((⌈(bL * bH) / (bV * bA * (sV / bV))⌉ : ℤ) : ℚ)⌉ ∧
      res.batteryBankVoltage = sV ∧
      res.batteryBankAh = bA * ((⌈(bL * bH) / (bV * bA * (sV / bV))⌉ : ℤ) : ℚ) := by
  refine ⟨_, compute_mkConfig sL bL sV bH bV bA sH pW pV bc pc
    h1.ne' h2.ne' h3.ne' h4.ne' h5.ne' h6.ne' h7.ne' h8.ne' h9.ne', ?_, rfl, ?_⟩
  · show ⌈(sV / bV) * ((⌈(bL * bH) / 1.0 / (bV * bA * (sV / bV))⌉ : ℤ) : ℚ)⌉ = _
    norm_num
  · show bA * ((⌈(bL * bH) / 1.0 / (bV * bA * (sV / bV))⌉ : ℤ) : ℚ) = _
    norm_num

/-- Witness for C3 at the spec's concrete scenario. -/
theorem C3_battery_sizing_witness :
    ((0 : ℚ) < 2000 ∧ (0 : ℚ) < 1500 ∧ (0 : ℚ) < 24 ∧ (0 : ℚ) < 4 ∧ (0 : ℚ) < 12 ∧
      (0 : ℚ) < 200 ∧ (0 : ℚ) < 5 ∧ (0 : ℚ) < 450 ∧ (0 : ℚ) < 40) ∧
    ∃ res, compute (mkConfig 2000 1500 24 4 12 200 5 450 40
        ConnectionType.series ConnectionType.series) = some res ∧
      res.minBatteries =
        ⌈((24 : ℚ) / 12) * ((⌈((1500 : ℚ) * 4) / (12 * 200 * ((24 : ℚ) / 12))⌉ : ℤ) : ℚ)⌉ ∧
      res.batteryBankVoltage = 24 ∧
      res.batteryBankAh =
        200 * ((⌈((1500 : ℚ) * 4) / (12 * 200 * ((24 : ℚ) / 12))⌉ : ℤ) : ℚ) :=
  ⟨by norm_num,
    C3_battery_sizing 2000 1500 24 4 12 200 5 450 40 ConnectionType.series ConnectionType.series
      (by norm_num) (by norm_num) (by norm_num) (by norm_num) (by norm_num) (by norm_num)
      (by norm_num) (by norm_num) (by norm_num)⟩

/-- Claim C4: for every complete configuration the panel count is a positive
integer covering the margined daily demand
`D = (solarLoad·solarHours + backupLoad·backupHours)·1.2` with the ceiling
property: production `panelWattage·panelCount·solarHours` is at least `D`,
and exceeds it by strictly less than one panel's production. -/
theorem C4_panel_count (sL bL sV bH bV bA sH pW pV : ℚ) (bc pc : ConnectionType)
    (h1 : 0 < sL) (h2 : 0 < bL) (h3 : 0 < sV) (h4 : 0 < bH) (h5 : 0 < bV)
    (h6 : 0 < bA) (h7 : 0 < sH) (h8 : 0 < pW) (h9 : 0 < pV) :
    ∃ res, compute (mkConfig sL bL sV bH bV bA sH pW pV bc pc) = some res ∧
      1 ≤ res.totalPanels ∧
      (sL * sH + bL * bH) * 1.2 ≤ pW * (res.totalPanels : ℚ) * sH ∧
      pW * (res.totalPanels : ℚ) * sH - (sL * sH + bL * bH) * 1.2 < pW * sH := by
  have hK : (0 : ℚ) < pW * sH := mul_pos h8 h7
  have hD : (0 : ℚ) < (sL * sH + bL * bH) * 1.2 := by positivity
  refine ⟨_, compute_mkConfig sL bL sV bH bV bA sH pW pV bc pc
    h1.ne' h2.ne' h3.ne' h4.ne' h5.ne' h6.ne' h7.ne' h8.ne' h9.ne', ?_, ?_, ?_⟩
  · show 1 ≤ ⌈(sL * sH + bL * bH) * 1.2 / (pW * sH)⌉
    exact one_le_ceil_of_pos (div_pos hD hK)
  · show (sL * sH + bL * bH) * 1.2 ≤
      pW * ((⌈(sL * sH + bL * bH) * 1.2 / (pW * sH)⌉ : ℤ) : ℚ) * sH
    have hle := Int.le_ceil ((sL * sH + bL * bH) * 1.2 / (pW * sH))
    rw [div_le_iff₀ hK] at hle
    calc (sL * sH + bL * bH) * 1.2
        ≤ ((⌈(sL * sH + bL * bH) * 1.2 / (pW * sH)⌉ : ℤ) : ℚ) * (pW * sH) := hle
      _ = pW * ((⌈(sL * sH + bL * bH) * 1.2 / (pW * sH)⌉ : ℤ) : ℚ) * sH := by ring
  · show pW * ((⌈(sL * sH + bL * bH) * 1.2 / (pW * sH)⌉ : ℤ) : ℚ) * sH -
      (sL * sH + bL * bH) * 1.2 < pW * sH
    have hlt := Int.ceil_lt_add_one ((sL * sH + bL * bH) * 1.2 / (pW * sH))
    have h2 := mul_lt_mul_of_pos_right hlt hK
    have h3 := div_mul_cancel₀ ((sL * sH + bL * bH) * 1.2) hK.ne'
    nlinarith [h2, h3]

/-- Witness for C4 at the spec's concrete scenario. -/
theorem C4_panel_count_witness :
    ((0 : ℚ) < 2000 ∧ (0 : ℚ) < 1500 ∧ (0 : ℚ) < 24 ∧ (0 : ℚ) < 4 ∧ (0 : ℚ) < 12 ∧
      (0 : ℚ) < 200 ∧ (0 : ℚ) < 5 ∧ (0 : ℚ) < 450 ∧ (0 : ℚ) < 40) ∧
    ∃ res, compute (mkConfig 2000 1500 24 4 12 200 5 450 40
        ConnectionType.series ConnectionType.series) = some res ∧
      1 ≤ res.totalPanels ∧
      ((2000 : ℚ) * 5 + 1500 * 4) * 1.2 ≤ 450 * (res.totalPanels : ℚ) * 5 ∧
      (450 : ℚ) * (res.totalPanels : ℚ) * 5 - ((2000 : ℚ) * 5 + 1500 * 4) * 1.2 < 450 * 5 :=
  ⟨by norm_num,
    C4_panel_count 2000 1500 24 4 12 200 5 450 40 ConnectionType.series ConnectionType.series
      (by norm_num) (by norm_num) (by norm_num) (by norm_num) (by norm_num) (by norm_num)
      (by norm_num) (by norm_num) (by norm_num)⟩

/-- Claim C5: for every complete configuration the charge-controller rating
equals `⌈(arrayWattage / systemVoltage) · 1.25 / 10⌉ · 10`; consequently it
is a multiple of 10 and at least `1.25 · arrayWattage / systemVoltage`. -/
theorem C5_charge_controller (sL bL sV bH bV bA sH pW pV : ℚ) (bc pc : ConnectionType)
    (h1 : 0 < sL) (h2 : 0 < bL) (h3 : 0 < sV) (h4 : 0 < bH) (h5 : 0 < bV)
    (h6 : 0 < bA) (h7 : 0 < sH) (h8 : 0 < pW) (h9 : 0 < pV) :
    ∃ res, compute (mkConfig sL bL sV bH bV bA sH pW pV bc pc) = some res ∧
      res.recommendedChargeController = ⌈res.panelArrayWattage / sV * 1.25 / 10⌉ * 10 ∧
      (10 : ℤ) ∣ res.recommendedChargeController ∧
      1.25 * res.panelArrayWattage / sV ≤ (res.recommendedChargeController : ℚ) := by
  refine ⟨_, compute_mkConfig sL bL sV bH bV bA sH pW pV bc pc
    h1.ne' h2.ne' h3.ne' h4.ne' h5.ne' h6.ne' h7.ne' h8.ne' h9.ne', rfl, ?_, ?_⟩
  · exact dvd_mul_left 10 _
  · show 1.25 * (pW * ((⌈(sL * sH + bL * bH) * 1.2 / (pW * sH)⌉ : ℤ) : ℚ)) / sV ≤
      ((⌈pW * ((⌈(sL * sH + bL * bH) * 1.2 / (pW * sH)⌉ : ℤ) : ℚ) / sV * 1.25 / 10⌉ * 10 : ℤ) : ℚ)
    have hle := Int.le_ceil (pW * ((⌈(sL * sH + bL * bH) * 1.2 / (pW * sH)⌉ : ℤ) : ℚ) /
      sV * 1.25 / 10)
    rw [div_le_iff₀ (by norm_num : (0 : ℚ) < 10)] at hle
    push_cast
    calc 1.25 * (pW * ((⌈(sL * sH + bL * bH) * 1.2 / (pW * sH)⌉ : ℤ) : ℚ)) / sV
        = pW * ((⌈(sL * sH + bL * bH) * 1.2 / (pW * sH)⌉ : ℤ) : ℚ) / sV * 1.25 := by ring
      _ ≤ ((⌈pW * ((⌈(sL * sH + bL * bH) * 1.2 / (pW * sH)⌉ : ℤ) : ℚ) / sV * 1.25 / 10⌉ :
          ℤ) : ℚ) * 10 := hle

/-- Witness for C5 at the spec's concrete scenario. -/
theorem C5_charge_controller_witness :
    ((0 : ℚ) < 2000 ∧ (0 : ℚ) < 1500 ∧ (0 : ℚ) < 24 ∧ (0 : ℚ) < 4 ∧ (0 : ℚ) < 12 ∧
      (0 : ℚ) < 200 ∧ (0 : ℚ) < 5 ∧ (0 : ℚ) < 450 ∧ (0 : ℚ) < 40) ∧
    ∃ res, compute (mkConfig 2000 1500 24 4 12 200 5 450 40
        ConnectionType.series ConnectionType.series) = some res ∧
      res.recommendedChargeController = ⌈res.panelArrayWattage / 24 * 1.25 / 10⌉ * 10 ∧
      (10 : ℤ) ∣ res.recommendedChargeController ∧
      1.25 * res.panelArrayWattage / 24 ≤ (res.recommendedChargeController : ℚ) :=
  ⟨by norm_num,
    C5_charge_controller 2000 1500 24 4 12 200 5 450 40
      ConnectionType.series ConnectionType.series
      (by norm_num) (by norm_num) (by norm_num) (by norm_num) (by norm_num) (by norm_num)
      (by norm_num) (by norm_num) (by norm_num)⟩

/-- Claim C6: for every complete configuration, with
`I_dc = max(solarLoad, backupLoad) / systemVoltage` and
`I_ac = max(solarLoad, backupLoad) / 230`, the three DC breakers all equal
`nextMcbSize I_dc`, the three DC cables all equal
`cableSizeForCurrent I_dc`, and the AC breaker and cable equal
`nextMcbSize I_ac` and `cableSizeForCurrent I_ac`. -/
theorem C6_protection_currents (sL bL sV bH bV bA sH pW pV : ℚ) (bc pc : ConnectionType)
    (h1 : 0 < sL) (h2 : 0 < bL) (h3 : 0 < sV) (h4 : 0 < bH) (h5 : 0 < bV)
    (h6 : 0 < bA) (h7 : 0 < sH) (h8 : 0 < pW) (h9 : 0 < pV) :
    ∃ res, compute (mkConfig sL bL sV bH bV bA sH pW pV bc pc) = some res ∧
      res.protection.dcMcbPanelToCC = nextMcbSize (max sL bL / sV) ∧
      res.protection.dcMcbCCToBattery = nextMcbSize (max sL bL / sV) ∧
      res.protection.dcBreakerBatteryToInverter = nextMcbSize (max sL bL / sV) ∧
      res.protection.cablePanelToCC = cableSizeForCurrent (max sL bL / sV) ∧
      res.protection.cableCCToBattery = cableSizeForCurrent (max sL bL / sV) ∧
      res.protection.cableBatteryToInverter = cableSizeForCurrent (max sL bL / sV) ∧
      res.protection.acMcbInverterToLoad = nextMcbSize (max sL bL / 230) ∧
      res.protection.cableInverterToLoad = cableSizeForCurrent (max sL bL / 230) :=
  ⟨_, compute_mkConfig sL bL sV bH bV bA sH pW pV bc pc
    h1.ne' h2.ne' h3.ne' h4.ne' h5.ne' h6.ne' h7.ne' h8.ne' h9.ne',
    rfl, rfl, rfl, rfl, rfl, rfl, rfl, rfl⟩

/-- Witness for C6 at the spec's concrete scenario. -/
theorem C6_protection_currents_witness :
    ((0 : ℚ) < 2000 ∧ (0 : ℚ) < 1500 ∧ (0 : ℚ) < 24 ∧ (0 : ℚ) < 4 ∧ (0 : ℚ) < 12 ∧
      (0 : ℚ) < 200 ∧ (0 : ℚ) < 5 ∧ (0 : ℚ) < 450 ∧ (0 : ℚ) < 40) ∧
    ∃ res, compute (mkConfig 2000 1500 24 4 12 200 5 450 40
        ConnectionType.series ConnectionType.series) = some res ∧
      res.protection.dcMcbPanelToCC = nextMcbSize (max 2000 1500 / 24) ∧
      res.protection.dcMcbCCToBattery = nextMcbSize (max 2000 1500 / 24) ∧
      res.protection.dcBreakerBatteryToInverter = nextMcbSize (max 2000 1500 / 24) ∧
      res.protection.cablePanelToCC = cableSizeForCurrent (max 2000 1500 / 24) ∧
      res.protection.cableCCToBattery = cableSizeForCurrent (max 2000 1500 / 24) ∧
      res.protection.cableBatteryToInverter = cableSizeForCurrent (max 2000 1500 / 24) ∧
      res.protection.acMcbInverterToLoad = nextMcbSize (max 2000 1500 / 230) ∧
      res.protection.cableInverterToLoad = cableSizeForCurrent (max 2000 1500 / 230) :=
  ⟨by norm_num,
    C6_protection_currents 2000 1500 24 4 12 200 5 450 40
      ConnectionType.series ConnectionType.series
      (by norm_num) (by norm_num) (by norm_num) (by norm_num) (by norm_num) (by norm_num)
      (by norm_num) (by norm_num) (by norm_num)⟩

/-- Claim C7: for every complete configuration the estimated array
open-circuit voltage is `panelVmp · 1.2` scaled by the topology's
panel-series count (`panelCount` for series, `⌈panelCount / 2⌉` for
series-parallel, 1 for parallel); the surge-protection voltage class is
`⌈Voc / 100⌉ · 100`, the isolator spec carries the same voltage class and
the current rating `nextMcbSize I_dc`, and the earth conductor is the fixed
constant 16 mm². -/
theorem C7_spd_isolator_earth (sL bL sV bH bV bA sH pW pV : ℚ) (bc pc : ConnectionType)
    (h1 : 0 < sL) (h2 : 0 < bL) (h3 : 0 < sV) (h4 : 0 < bH) (h5 : 0 < bV)
    (h6 : 0 < bA) (h7 : 0 < sH) (h8 : 0 < pW) (h9 : 0 < pV) :
    ∃ res, compute (mkConfig sL bL sV bH bV bA sH pW pV bc pc) = some res ∧
      (let voc : ℚ :=
        match pc with
        | .series => pV * 1.2 * (res.totalPanels : ℚ)
        | .seriesParallel => pV * 1.2 * ((⌈(res.totalPanels : ℚ) / 2⌉ : ℤ) : ℚ)
        | .parallel => pV * 1.2
      res.protection.spdRatingVolts = ⌈voc / 100⌉ * 100 ∧
      res.protection.isolatorVolts = ⌈voc / 100⌉ * 100 ∧
      res.protection.isolatorAmps = nextMcbSize (max sL bL / sV) ∧
      res.protection.earthWire = 16) := by
  refine ⟨_, compute_mkConfig sL bL sV bH bV bA sH pW pV bc pc
    h1.ne' h2.ne' h3.ne' h4.ne' h5.ne' h6.ne' h7.ne' h8.ne' h9.ne', ?_⟩
  cases pc <;> exact ⟨rfl, rfl, rfl, rfl⟩

/-- Witness for C7 at the spec's concrete scenario (series topology). -/
theorem C7_spd_isolator_earth_witness :
    ((0 : ℚ) < 2000 ∧ (0 : ℚ) < 1500 ∧ (0 : ℚ) < 24 ∧ (0 : ℚ) < 4 ∧ (0 : ℚ) < 12 ∧
      (0 : ℚ) < 200 ∧ (0 : ℚ) < 5 ∧ (0 : ℚ) < 450 ∧ (0 : ℚ) < 40) ∧
    ∃ res, compute (mkConfig 2000 1500 24 4 12 200 5 450 40
        ConnectionType.series ConnectionType.series) = some res ∧
      (let voc : ℚ :=
        match ConnectionType.series with
        | .series => 40 * 1.2 * (res.totalPanels : ℚ)
        | .seriesParallel => 40 * 1.2 * ((⌈(res.totalPanels : ℚ) / 2⌉ : ℤ) : ℚ)
        | .parallel => 40 * 1.2
      res.protection.spdRatingVolts = ⌈voc / 100⌉ * 100 ∧
      res.protection.isolatorVolts = ⌈voc / 100⌉ * 100 ∧
      res.protection.isolatorAmps = nextMcbSize (max 2000 1500 / 24) ∧
      res.protection.earthWire = 16) :=
  ⟨by norm_num,
    C7_spd_isolator_earth 2000 1500 24 4 12 200 5 450 40
      ConnectionType.series ConnectionType.series
      (by norm_num) (by norm_num) (by norm_num) (by norm_num) (by norm_num) (by norm_num)
      (by norm_num) (by norm_num) (by norm_num)⟩

/-- Claim C8: for every complete configuration — including those where
`systemVoltage / batteryVoltage` is not an integer — the battery count is an
integer at least `⌈systemVoltage / batteryVoltage⌉`: the bank always
contains at least one full series string. -/
theorem C8_min_battery_string (sL bL sV bH bV bA sH pW pV : ℚ) (bc pc : ConnectionType)
    (h1 : 0 < sL) (h2 : 0 < bL) (h3 : 0 < sV) (h4 : 0 < bH) (h5 : 0 < bV)
    (h6 : 0 < bA) (h7 : 0 < sH) (h8 : 0 < pW) (h9 : 0 < pV) :
    ∃ res, compute (mkConfig sL bL sV bH bV bA sH pW pV bc pc) = some res ∧
      ⌈sV / bV⌉ ≤ res.minBatteries := by
  refine ⟨_, compute_mkConfig sL bL sV bH bV bA sH pW pV bc pc
    h1.ne' h2.ne' h3.ne' h4.ne' h5.ne' h6.ne' h7.ne' h8.ne' h9.ne', ?_⟩
  show ⌈sV / bV⌉ ≤ ⌈(sV / bV) * ((⌈bL * bH / 1.0 / (bV * bA * (sV / bV))⌉ : ℤ) : ℚ)⌉
  have hS : (0 : ℚ) < sV / bV := div_pos h3 h5
  have hW : (0 : ℚ) < bV * bA * (sV / bV) := mul_pos (mul_pos h5 h6) hS
  have hE : (0 : ℚ) < bL * bH / 1.0 := by
    rw [show (1.0 : ℚ) = 1 by norm_num, div_one]
    exact mul_pos h2 h4
  have hP : (1 : ℚ) ≤ ((⌈bL * bH / 1.0 / (bV * bA * (sV / bV))⌉ : ℤ) : ℚ) := by
    exact_mod_cast one_le_ceil_of_pos (div_pos hE hW)
  exact Int.ceil_mono (le_mul_of_one_le_right hS.le hP)

/-- Witness for C8 at a scenario with a non-integral series factor
(`systemVoltage / batteryVoltage = 24 / 9`). -/
theorem C8_min_battery_string_witness :
    ((0 : ℚ) < 2000 ∧ (0 : ℚ) < 1500 ∧ (0 : ℚ) < 24 ∧ (0 : ℚ) < 4 ∧ (0 : ℚ) < 9 ∧
      (0 : ℚ) < 200 ∧ (0 : ℚ) < 5 ∧ (0 : ℚ) < 450 ∧ (0 : ℚ) < 40) ∧
    ∃ res, compute (mkConfig 2000 1500 24 4 9 200 5 450 40
        ConnectionType.series ConnectionType.series) = some res ∧
      ⌈(24 : ℚ) / 9⌉ ≤ res.minBatteries :=
  ⟨by norm_num,
    C8_min_battery_string 2000 1500 24 4 9 200 5 450 40
      ConnectionType.series ConnectionType.series
      (by norm_num) (by norm_num) (by norm_num) (by norm_num) (by norm_num) (by norm_num)
      (by norm_num) (by norm_num) (by norm_num)⟩

/-- Claim C9: the `batteryConnection` (battery topology) field has no
influence on any computed output — two configurations differing only in it
produce identical results. -/
theorem C9_battery_topology_irrelevant (cfg : Configuration) (t1 t2 : ConnectionType) :
    compute { cfg with batteryConnection := t1 } =
      compute { cfg with batteryConnection := t2 } := rfl

/-- Claim C10: for every complete configuration the charge-controller rating
is at least 10 A — the array current is strictly positive, so rounding up to
the nearest 10 A step never yields 0. -/
theorem C10_charge_controller_min (sL bL sV bH bV bA sH pW pV : ℚ) (bc pc : ConnectionType)
    (h1 : 0 < sL) (h2 : 0 < bL) (h3 : 0 < sV) (h4 : 0 < bH) (h5 : 0 < bV)
    (h6 : 0 < bA) (h7 : 0 < sH) (h8 : 0 < pW) (h9 : 0 < pV) :
    ∃ res, compute (mkConfig sL bL sV bH bV bA sH pW pV bc pc) = some res ∧
      10 ≤ res.recommendedChargeController := by
  refine ⟨_, compute_mkConfig sL bL sV bH bV bA sH pW pV bc pc
    h1.ne' h2.ne' h3.ne' h4.ne' h5.ne' h6.ne' h7.ne' h8.ne' h9.ne', ?_⟩
  show 10 ≤ ⌈pW * ((⌈(sL * sH + bL * bH) * 1.2 / (pW * sH)⌉ : ℤ) : ℚ) / sV * 1.25 / 10⌉ * 10
  have hD : (0 : ℚ) < (sL * sH + bL * bH) * 1.2 := by positivity
  have hn : (1 : ℚ) ≤ ((⌈(sL * sH + bL * bH) * 1.2 / (pW * sH)⌉ : ℤ) : ℚ) := by
    exact_mod_cast one_le_ceil_of_pos (div_pos hD (mul_pos h8 h7))
  have hx : (0 : ℚ) < pW * ((⌈(sL * sH + bL * bH) * 1.2 / (pW * sH)⌉ : ℤ) : ℚ) / sV *
      1.25 / 10 := by
    have : (0 : ℚ) < pW * ((⌈(sL * sH + bL * bH) * 1.2 / (pW * sH)⌉ : ℤ) : ℚ) :=
      mul_pos h8 (lt_of_lt_of_le one_pos hn)
    positivity
  have hceil := one_le_ceil_of_pos hx
  omega

/-- Witness for C10 at the spec's concrete scenario. -/
theorem C10_charge_controller_min_witness :
    ((0 : ℚ) < 2000 ∧ (0 : ℚ) < 1500 ∧ (0 : ℚ) < 24 ∧ (0 : ℚ) < 4 ∧ (0 : ℚ) < 12 ∧
      (0 : ℚ) < 200 ∧ (0 : ℚ) < 5 ∧ (0 : ℚ) < 450 ∧ (0 : ℚ) < 40) ∧
    ∃ res, compute (mkConfig 2000 1500 24 4 12 200 5 450 40
        ConnectionType.series ConnectionType.series) = some res ∧
      10 ≤ res.recommendedChargeController :=
  ⟨by norm_num,
    C10_charge_controller_min 2000 1500 24 4 12 200 5 450 40
      ConnectionType.series ConnectionType.series
      (by norm_num) (by norm_num) (by norm_num) (by norm_num) (by norm_num) (by norm_num)
      (by norm_num) (by norm_num) (by norm_num)⟩

end Pro0126
